import Mathlib

/-!
Shallow embedding of the redirect-policy, sensitive-header-redaction,
trust-store-loading and streaming-body components of the `rquest` HTTP
client core (`src/redirect.rs`, `src/tls/certs/load.rs`,
`src/core/body/mod.rs`), together with theorems settling the spec claims.
-/

namespace Rquest

/-- Model of the external URL type through the narrow interface used by
`redirect.rs`: scheme, optional host, optional explicit port, path.
Mirrors `url::Url` as consumed via `host_str` and
`port_or_known_default`. -/
structure Url where
  scheme : String
  host : Option String
  port : Option Nat
  path : String
deriving DecidableEq, Repr

/-- Default port per scheme, as known by `url::Url::port_or_known_default`
(http 80, ws 80, https 443, wss 443, ftp 21). -/
def defaultPort (scheme : String) : Option Nat :=
  if scheme = "http" then some 80
  else if scheme = "ws" then some 80
  else if scheme = "https" then some 443
  else if scheme = "wss" then some 443
  else if scheme = "ftp" then some 21
  else none

/-- Accessor modelling `Url::host_str`. -/
def Url.host_str (u : Url) : Option String := u.host

/-- Accessor modelling `Url::port_or_known_default`: the explicit port
if present, otherwise the default port of the scheme. -/
def Url.port_or_known_default (u : Url) : Option Nat :=
  match u.port with
  | some p => some p
  | none => defaultPort u.scheme

/-- Model of `http::Method` (the verbs the claims mention plus common
ones). -/
inductive Method where
  | GET | HEAD | POST | PUT | DELETE | OPTIONS | PATCH
deriving DecidableEq, Repr

/-- Model of `http::StatusCode` as its numeric code. -/
def StatusCode := Nat
deriving DecidableEq, Repr

/-- Constant modelling `StatusCode::FOUND` (302). -/
def StatusCode.FOUND : StatusCode := (302 : Nat)

/-- Model of `http::HeaderMap`: an ordered list of (lowercase name,
value) entries.  The `http` crate normalises header names to lowercase,
so case-insensitive name comparison is plain string equality here. -/
def HeaderMap := List (String × String)
deriving DecidableEq, Repr

/-- Operation modelling `HeaderMap::remove`: drops every entry whose
name equals `name`. -/
def HeaderMap.remove (m : HeaderMap) (name : String) : HeaderMap :=
  List.filter (fun e => e.1 ≠ name) m

/-- Membership of an entry in a header map. -/
def HeaderMap.mem (e : String × String) (m : HeaderMap) : Prop :=
  List.Mem e m

def AUTHORIZATION : String := "authorization"
def COOKIE : String := "cookie"
def PROXY_AUTHORIZATION : String := "proxy-authorization"
def WWW_AUTHENTICATE : String := "www-authenticate"

/-- Boxed error causes that flow through `Action::Error` in the
modelled code: the `TooManyRedirects` marker type of `redirect.rs`, or
an arbitrary caller-supplied cause (kept as its display string). -/
inductive ErrorCause where
  | tooManyRedirects
  | custom (msg : String)
deriving DecidableEq, Repr

/-- Display string of a boxed cause; `TooManyRedirects` displays as
"too many redirects" per its `fmt::Display` impl. -/
def ErrorCause.display : ErrorCause → String
  | .tooManyRedirects => "too many redirects"
  | .custom msg => msg

/-- Enumeration modelling `ActionKind` from `redirect.rs`. -/
inductive ActionKind where
  | Follow
  | Stop
  | Error (cause : ErrorCause)
deriving DecidableEq, Repr

/-- Public wrapper modelling `Action`. -/
structure Action where
  inner : ActionKind
deriving DecidableEq, Repr

/-- View modelling `Attempt`: status, next method/URL, previous method,
previous URLs (oldest first), handed to a policy once per hop. -/
structure Attempt where
  status : StatusCode
  next_method : Method
  next : Url
  previous_method : Method
  previous : List Url

/-- Accessor modelling `Attempt::url`: the next URL to redirect to. -/
def Attempt.url (a : Attempt) : Url := a.next

/-- Constructor modelling `Attempt::follow`. -/
def Attempt.follow (_ : Attempt) : Action := ⟨ActionKind.Follow⟩

/-- Constructor modelling `Attempt::stop`. -/
def Attempt.stop (_ : Attempt) : Action := ⟨ActionKind.Stop⟩

/-- Constructor modelling `Attempt::error`. -/
def Attempt.error (_ : Attempt) (cause : ErrorCause) : Action :=
  ⟨ActionKind.Error cause⟩

/-- Enumeration modelling `PolicyKind` from `redirect.rs`. -/
inductive PolicyKind where
  | Custom (f : Attempt → Action)
  | Limit (max : Nat)
  | None

/-- Public wrapper modelling `Policy`. -/
structure Policy where
  inner : PolicyKind

/-- Constructor modelling `Policy::limited`. -/
def Policy.limited (max : Nat) : Policy := ⟨PolicyKind.Limit max⟩

/-- Constructor modelling `Policy::none`. -/
def Policy.none : Policy := ⟨PolicyKind.None⟩

/-- Constructor modelling `Policy::custom`. -/
def Policy.custom (f : Attempt → Action) : Policy := ⟨PolicyKind.Custom f⟩

/-- Operation modelling `Policy::redirect`: apply the policy to an
attempt to produce an action. -/
def Policy.redirect (p : Policy) (attempt : Attempt) : Action :=
  match p.inner with
  | PolicyKind.Custom f => f attempt
  | PolicyKind.Limit max =>
      if attempt.previous.length > max then
        attempt.error ErrorCause.tooManyRedirects
      else
        attempt.follow
  | PolicyKind.None => attempt.stop

/-- Operation modelling `Policy::check`: build an `Attempt` from the
hop data, run `redirect`, return the inner `ActionKind`. -/
def Policy.check (p : Policy) (status : StatusCode) (next_method : Method)
    (next : Url) (previous_method : Method) (previous : List Url) :
    ActionKind :=
  (p.redirect
    { status := status
      next_method := next_method
      next := next
      previous_method := previous_method
      previous := previous }).inner

/-- Value modelling `Default for Policy`: `Policy::limited(10)`. -/
def Policy.default : Policy := Policy.limited 10

/-- Operation modelling `Policy::remove_sensitive_headers`: if the last
previous URL differs from `next` in host or effective port, remove the
five sensitive headers; otherwise (or with no previous URL) leave the
map unchanged. -/
def Policy.remove_sensitive_headers (headers : HeaderMap) (next : Url)
    (previous : List Url) : HeaderMap :=
  match previous.getLast? with
  | some prev =>
      if next.host_str ≠ prev.host_str ∨
          next.port_or_known_default ≠ prev.port_or_known_default then
        ((((headers.remove AUTHORIZATION).remove COOKIE).remove
            "cookie2").remove PROXY_AUTHORIZATION).remove WWW_AUTHENTICATE
      else
        headers
  | Option.none => headers

/-- The header names removed on a cross-host hop. -/
def sensitiveHeaderNames : List String :=
  [AUTHORIZATION, COOKIE, "cookie2", PROXY_AUTHORIZATION, WWW_AUTHENTICATE]

/-! ## Trust store loader (`src/tls/certs/load.rs`) -/

/-- One DER-encoded certificate, as a byte sequence. -/
abbrev Cert := List Nat

/-- Model of `CertStore` as the collection of certificates it holds;
its constructor `from_der_certs` lives outside the modelled sources and
is treated as an arbitrary fallible function below. -/
structure CertStore where
  certs : List Cert
deriving DecidableEq, Repr

/-- Outcome of building the `LOAD_CERTS` static: the optional store and
the error-log entry emitted on failure. -/
structure LoadOutcome where
  store : Option CertStore
  loggedError : Option String
deriving DecidableEq, Repr

/-- Model of the `LOAD_CERTS` initializer.  The two `cfg` features pick
the source at compile time: with `webpki-roots` enabled the bundled
webpki root set feeds `from_der_certs`; otherwise, with `native-roots`
enabled, the OS native certificates do.  The `Ok` store is kept, an
`Err` is logged and yields no store.  With neither feature the static
does not build (outer `none`). -/
def LOAD_CERTS (webpkiRootsFeature nativeRootsFeature : Bool)
    (from_der_certs : List Cert → Except String CertStore)
    (webpkiRootCerts nativeRootCerts : List Cert) : Option LoadOutcome :=
  let res? : Option (Except String CertStore) :=
    if webpkiRootsFeature then some (from_der_certs webpkiRootCerts)
    else if nativeRootsFeature then some (from_der_certs nativeRootCerts)
    else Option.none
  res?.map (fun res =>
    match res with
    | Except.ok store => ⟨some store, Option.none⟩
    | Except.error err =>
        ⟨Option.none, some ("tls failed to load root certificates: " ++ err)⟩)

/-! ## Streaming body (`src/core/body/mod.rs`) -/

/-- Modelled from the spec: `src/core/body/mod.rs` only re-exports the
`Body` and `Frame` types of the external `http_body` crate, so the
frame and size-hint model follows the spec wording. A frame is either a
data chunk or a trailer header set. -/
inductive Frame where
  | data (chunk : List Nat)
  | trailers (headers : HeaderMap)

/-- Whether a frame is a data frame. -/
def Frame.isData : Frame → Bool
  | .data _ => true
  | .trailers _ => false

/-- Byte length contributed by a frame (trailers contribute none). -/
def Frame.byteLength : Frame → Nat
  | .data chunk => chunk.length
  | .trailers _ => 0

/-- Modelled from the spec: the declared-length query of the `Body`
contract returns either an exact byte length or unknown; an exact
length is an explicit, distinct state, not inferred from the frames. -/
inductive SizeHint where
  | exact (n : Nat)
  | unknown
deriving DecidableEq, Repr

/-- Modelled from the spec: a body is the finite ordered frame sequence
it produces before its end-of-stream signal, together with its declared
size hint. -/
structure BodyModel where
  frames : List Frame
  hint : SizeHint

/-- Total data bytes a body produces. -/
def BodyModel.dataByteCount (b : BodyModel) : Nat :=
  (b.frames.map Frame.byteLength).sum

/-- Modelled from the spec: the declared-length contract of a valid
`Body` (the trait itself lives in the external `http_body` crate). A
body declaring exact length `n` produces exactly `n` data bytes, and a
body declaring exact length `0` terminates after zero data frames plus
end-of-stream. A body declaring `unknown` is unconstrained. -/
def BodyModel.wellFormed (b : BodyModel) : Prop :=
  ∀ n, b.hint = SizeHint.exact n →
    b.dataByteCount = n ∧ (n = 0 → b.frames.filter Frame.isData = [])

/-! ## Concrete values used by the witnesses (taken from the tests in
`redirect.rs`) -/

/-- The URL `http://x.y/z`. -/
def urlXY : Url := ⟨"http", some "x.y", Option.none, "/z"⟩

/-- The URL `http://a.b/c/0`. -/
def urlAB : Url := ⟨"http", some "a.b", Option.none, "/c/0"⟩

/-- The URL `http://a.b/z` (same host and default port as `urlAB`). -/
def urlABZ : Url := ⟨"http", some "a.b", Option.none, "/z"⟩

/-- The URL `http://a.b.d/e/33`. -/
def urlABD : Url := ⟨"http", some "a.b.d", Option.none, "/e/33"⟩

/-- A header map with an unrelated header and two sensitive ones. -/
def exampleHeaders : HeaderMap :=
  [("accept", "*/*"), ("authorization", "let me in"), ("cookie", "foo=bar")]

/-! ## Theorems for the claims -/

/-- Removing the five sensitive header names one after another equals a
single filter keeping exactly the non-sensitive entries. -/
theorem removes_eq_filter (h : HeaderMap) :
    ((((h.remove AUTHORIZATION).remove COOKIE).remove
        "cookie2").remove PROXY_AUTHORIZATION).remove WWW_AUTHENTICATE
      = List.filter (fun e => decide (e.1 ∉ sensitiveHeaderNames)) h := by
  simp only [HeaderMap.remove, List.filter_filter]
  apply List.filter_congr
  intro e _
  by_cases h1 : e.1 = AUTHORIZATION <;>
    by_cases h2 : e.1 = COOKIE <;>
      by_cases h3 : e.1 = "cookie2" <;>
        by_cases h4 : e.1 = PROXY_AUTHORIZATION <;>
          by_cases h5 : e.1 = WWW_AUTHENTICATE <;>
            simp [sensitiveHeaderNames, h1, h2, h3, h4, h5]

/-- C1: when the last previous URL differs from the next URL in host or
effective port, `remove_sensitive_headers` removes exactly the
sensitive entries (authorization, cookie, cookie2, proxy-authorization,
www-authenticate) and keeps every other entry untouched, in order. -/
theorem remove_sensitive_headers_cross_host (headers : HeaderMap)
    (next : Url) (previous : List Url) (u : Url)
    (hlast : previous.getLast? = some u)
    (hcross : next.host_str ≠ u.host_str ∨
      next.port_or_known_default ≠ u.port_or_known_default) :
    Policy.remove_sensitive_headers headers next previous
      = List.filter (fun e => decide (e.1 ∉ sensitiveHeaderNames)) headers
    ∧ ∀ e, HeaderMap.mem e
        (Policy.remove_sensitive_headers headers next previous)
      ↔ HeaderMap.mem e headers ∧ e.1 ∉ sensitiveHeaderNames := by
  have hmain : Policy.remove_sensitive_headers headers next previous
      = List.filter (fun e => decide (e.1 ∉ sensitiveHeaderNames))
          headers := by
    unfold Policy.remove_sensitive_headers
    rw [hlast]
    simp only [hcross, if_pos]
    exact removes_eq_filter headers
  refine ⟨hmain, fun e => ?_⟩
  rw [hmain]
  have hgen : ∀ (l : List (String × String)),
      (e ∈ List.filter (fun x => decide (x.1 ∉ sensitiveHeaderNames)) l)
        ↔ e ∈ l ∧ e.1 ∉ sensitiveHeaderNames := by
    intro l
    rw [List.mem_filter]
    simp
  exact hgen headers

/-- Witness for C1: next `http://x.y/z`, last previous
`http://a.b.d/e/33`; only the `accept` entry survives. -/
theorem remove_sensitive_headers_cross_host_witness :
    Policy.remove_sensitive_headers exampleHeaders urlXY [urlAB, urlABD]
      = [("accept", "*/*")] := by
  have h := remove_sensitive_headers_cross_host exampleHeaders urlXY
    [urlAB, urlABD] urlABD rfl
    (Or.inl (by simp [urlXY, urlABD, Url.host_str]))
  rw [h.1]
  decide

/-- C3: `remove_sensitive_headers` leaves the map unchanged when the
history is empty and when the most recent previous URL shares host and
effective port with the next URL; and its result depends only on the
most recent previous URL, never on earlier history entries. -/
theorem remove_sensitive_headers_noop (headers : HeaderMap) (next : Url)
    (previous : List Url) :
    (previous = [] →
      Policy.remove_sensitive_headers headers next previous = headers)
    ∧ (∀ u, previous.getLast? = some u →
        next.host_str = u.host_str →
        next.port_or_known_default = u.port_or_known_default →
        Policy.remove_sensitive_headers headers next previous = headers)
    ∧ (∀ previous2, previous.getLast? = previous2.getLast? →
        Policy.remove_sensitive_headers headers next previous
          = Policy.remove_sensitive_headers headers next previous2) := by
  refine ⟨?_, ?_, ?_⟩
  · intro h
    subst h
    rfl
  · intro u hu hh hp
    unfold Policy.remove_sensitive_headers
    rw [hu]
    simp [hh, hp]
  · intro previous2 h
    unfold Policy.remove_sensitive_headers
    rw [h]

/-- Witness for C3: no-op on empty history; no-op for
`http://a.b/z` after `http://a.b/c/0` (same host, same default port);
and only the last history entry matters. -/
theorem remove_sensitive_headers_noop_witness :
    Policy.remove_sensitive_headers exampleHeaders urlXY [] = exampleHeaders
    ∧ Policy.remove_sensitive_headers exampleHeaders urlABZ [urlAB]
        = exampleHeaders
    ∧ Policy.remove_sensitive_headers exampleHeaders urlXY [urlABD, urlAB]
        = Policy.remove_sensitive_headers exampleHeaders urlXY
            [urlXY, urlAB] :=
  ⟨(remove_sensitive_headers_noop exampleHeaders urlXY []).1 rfl,
   (remove_sensitive_headers_noop exampleHeaders urlABZ [urlAB]).2.1
     urlAB rfl (by decide) (by decide),
   (remove_sensitive_headers_noop exampleHeaders urlXY
     [urlABD, urlAB]).2.2 [urlXY, urlAB] rfl⟩

/-- C8: the trust-store initializer prefers the bundled webpki roots
over the native roots, uses the native roots only when the webpki
feature is absent, and on any load outcome yields an outcome value —
a populated store on success, no store plus a logged error on failure;
a failed load never surfaces as a construction-time error. -/
theorem load_certs_source_order_and_no_failure
    (from_der_certs : List Cert → Except String CertStore)
    (webpkiRootCerts nativeRootCerts : List Cert) :
    (∀ wf nf : Bool, (wf = true ∨ nf = true) →
      ∃ r : LoadOutcome,
        LOAD_CERTS wf nf from_der_certs webpkiRootCerts nativeRootCerts
          = some r)
    ∧ LOAD_CERTS true true from_der_certs webpkiRootCerts nativeRootCerts
        = LOAD_CERTS true false from_der_certs webpkiRootCerts
            nativeRootCerts
    ∧ (∀ s, from_der_certs webpkiRootCerts = Except.ok s →
        LOAD_CERTS true false from_der_certs webpkiRootCerts
            nativeRootCerts
          = some ⟨some s, Option.none⟩)
    ∧ (∀ e, from_der_certs webpkiRootCerts = Except.error e →
        LOAD_CERTS true false from_der_certs webpkiRootCerts
            nativeRootCerts
          = some ⟨Option.none,
              some ("tls failed to load root certificates: " ++ e)⟩)
    ∧ (∀ s, from_der_certs nativeRootCerts = Except.ok s →
        LOAD_CERTS false true from_der_certs webpkiRootCerts
            nativeRootCerts
          = some ⟨some s, Option.none⟩)
    ∧ (∀ e, from_der_certs nativeRootCerts = Except.error e →
        LOAD_CERTS false true from_der_certs webpkiRootCerts
            nativeRootCerts
          = some ⟨Option.none,
              some ("tls failed to load root certificates: " ++ e)⟩) := by
  refine ⟨?_, rfl, ?_, ?_, ?_, ?_⟩
  · intro wf nf h
    cases wf
    · cases nf
      · rcases h with h | h <;> exact absurd h (by simp)
      · cases hres : from_der_certs nativeRootCerts with
        | ok s => exact ⟨⟨some s, Option.none⟩, by simp [LOAD_CERTS, hres]⟩
        | error e =>
            exact ⟨⟨Option.none,
              some ("tls failed to load root certificates: " ++ e)⟩,
              by simp [LOAD_CERTS, hres]⟩
    · cases hres : from_der_certs webpkiRootCerts with
      | ok s => exact ⟨⟨some s, Option.none⟩, by simp [LOAD_CERTS, hres]⟩
      | error e =>
          exact ⟨⟨Option.none,
            some ("tls failed to load root certificates: " ++ e)⟩,
            by simp [LOAD_CERTS, hres]⟩
  · intro s hs
    simp [LOAD_CERTS, hs]
  · intro e he
    simp [LOAD_CERTS, he]
  · intro s hs
    simp [LOAD_CERTS, hs]
  · intro e he
    simp [LOAD_CERTS, he]

/-- Loader for the witness of C8: fails on an empty certificate list,
otherwise builds the store of those certificates. -/
def exFromDer (certs : List Cert) : Except String CertStore :=
  if certs = [] then Except.error "empty" else Except.ok ⟨certs⟩

/-- Witness for C8: with the webpki feature the bundled roots load into
a store; with only the native feature and an empty native source, the
load fails into no store plus a logged error. -/
theorem load_certs_source_order_and_no_failure_witness :
    LOAD_CERTS true false exFromDer [[1]] [] = some ⟨some ⟨[[1]]⟩, Option.none⟩
    ∧ LOAD_CERTS false true exFromDer [[1]] []
      = some ⟨Option.none,
          some ("tls failed to load root certificates: " ++ "empty")⟩ :=
  ⟨(load_certs_source_order_and_no_failure exFromDer [[1]] []).2.2.1
     ⟨[[1]]⟩ (by simp [exFromDer]),
   (load_certs_source_order_and_no_failure exFromDer [[1]] []).2.2.2.2.2
     "empty" (by simp [exFromDer])⟩

/-- C9: a well-formed body declaring exact length 0 terminates after
zero data frames followed by end-of-stream, and its state differs from
that of any body declaring unknown length — even one producing zero
frames — because the declared size hints differ. -/
theorem body_exact_zero_distinct (b bu : BodyModel)
    (hwf : b.wellFormed) (h0 : b.hint = SizeHint.exact 0)
    (hu : bu.hint = SizeHint.unknown) :
    b.frames.filter Frame.isData = []
    ∧ b.dataByteCount = 0
    ∧ b.hint ≠ bu.hint
    ∧ b ≠ bu := by
  obtain ⟨hc, hz⟩ := hwf 0 h0
  refine ⟨hz rfl, hc, ?_, ?_⟩
  · rw [h0, hu]
    simp
  · intro he
    rw [he, hu] at h0
    cases h0

/-- Witness for C9: the empty exact-0 body versus the empty
unknown-length body. -/
theorem body_exact_zero_distinct_witness :
    (BodyModel.mk [] (SizeHint.exact 0)).frames.filter Frame.isData = []
    ∧ BodyModel.mk [] (SizeHint.exact 0) ≠ BodyModel.mk [] SizeHint.unknown := by
  have h := body_exact_zero_distinct (BodyModel.mk [] (SizeHint.exact 0))
    (BodyModel.mk [] SizeHint.unknown)
    (fun n hn => by
      injection hn with hn
      subst hn
      exact ⟨rfl, fun _ => rfl⟩) rfl rfl
  exact ⟨h.1, h.2.2.2⟩

/-- C2: for every `max` and every attempt data, a `Limit(max)` policy
compares the count of already-issued requests strictly against `max`:
with exactly `max` previous URLs it yields `Follow`, with `max + 1` it
yields `Error` whose cause displays as "too many redirects". -/
theorem limited_policy_boundary (max : Nat) (status : StatusCode)
    (nm : Method) (next : Url) (pm : Method) (previous : List Url) :
    ((Policy.limited max).check status nm next pm previous
        = if max < previous.length
          then ActionKind.Error ErrorCause.tooManyRedirects
          else ActionKind.Follow)
    ∧ (previous.length = max →
        (Policy.limited max).check status nm next pm previous
          = ActionKind.Follow)
    ∧ (previous.length = max + 1 →
        (Policy.limited max).check status nm next pm previous
          = ActionKind.Error ErrorCause.tooManyRedirects
        ∧ ErrorCause.display ErrorCause.tooManyRedirects
          = "too many redirects") := by
  refine ⟨?_, ?_, ?_⟩
  · simp only [Policy.check, Policy.redirect, Policy.limited, Attempt.error,
      Attempt.follow, gt_iff_lt]
    split <;> rfl
  · intro h
    simp [Policy.check, Policy.redirect, Policy.limited, Attempt.follow, h]
  · intro h
    refine ⟨?_, rfl⟩
    simp [Policy.check, Policy.redirect, Policy.limited, Attempt.error, h]

/-- Witness for C2 at `max = 2` with histories of length 2 and 3. -/
theorem limited_policy_boundary_witness :
    (Policy.limited 2).check StatusCode.FOUND Method.GET urlXY Method.GET
        [urlAB, urlAB] = ActionKind.Follow
    ∧ (Policy.limited 2).check StatusCode.FOUND Method.GET urlXY Method.GET
        [urlAB, urlAB, urlABD]
      = ActionKind.Error ErrorCause.tooManyRedirects :=
  ⟨(limited_policy_boundary 2 StatusCode.FOUND Method.GET urlXY Method.GET
      [urlAB, urlAB]).2.1 rfl,
   ((limited_policy_boundary 2 StatusCode.FOUND Method.GET urlXY Method.GET
      [urlAB, urlAB, urlABD]).2.2 rfl).1⟩

/-- C4: the default policy is `Limit(10)`; with ten previous URLs
`check` returns `Follow`, with eleven it returns the too-many-redirects
error. -/
theorem default_policy_limit_ten (status : StatusCode) (nm : Method)
    (next : Url) (pm : Method) (previous : List Url) :
    Policy.default = Policy.limited 10
    ∧ (previous.length = 10 →
        Policy.default.check status nm next pm previous = ActionKind.Follow)
    ∧ (previous.length = 11 →
        Policy.default.check status nm next pm previous
          = ActionKind.Error ErrorCause.tooManyRedirects) := by
  refine ⟨rfl, ?_, ?_⟩
  · intro h
    simp [Policy.default, Policy.check, Policy.redirect, Policy.limited,
      Attempt.follow, h]
  · intro h
    simp [Policy.default, Policy.check, Policy.redirect, Policy.limited,
      Attempt.error, h]

/-- Witness for C4 with histories of length 10 and 11. -/
theorem default_policy_limit_ten_witness :
    Policy.default.check StatusCode.FOUND Method.GET urlXY Method.GET
        (List.replicate 10 urlAB) = ActionKind.Follow
    ∧ Policy.default.check StatusCode.FOUND Method.GET urlXY Method.GET
        (List.replicate 10 urlAB ++ [urlABD])
      = ActionKind.Error ErrorCause.tooManyRedirects :=
  ⟨(default_policy_limit_ten StatusCode.FOUND Method.GET urlXY Method.GET
      (List.replicate 10 urlAB)).2.1 rfl,
   (default_policy_limit_ten StatusCode.FOUND Method.GET urlXY Method.GET
      (List.replicate 10 urlAB ++ [urlABD])).2.2 rfl⟩

/-- C5: a `None` policy yields `Stop` for every attempt — never
`Follow` and never `Error`. -/
theorem none_policy_always_stop (status : StatusCode) (nm : Method)
    (next : Url) (pm : Method) (previous : List Url) :
    Policy.none.check status nm next pm previous = ActionKind.Stop
    ∧ Policy.none.check status nm next pm previous ≠ ActionKind.Follow
    ∧ ∀ c, Policy.none.check status nm next pm previous
        ≠ ActionKind.Error c := by
  refine ⟨rfl, by simp [Policy.check, Policy.redirect, Policy.none,
    Attempt.stop], ?_⟩
  intro c
  simp [Policy.check, Policy.redirect, Policy.none, Attempt.stop]

/-- C6: a `Custom(f)` policy returns exactly the action `f` produces on
the attempt, with nothing synthesized around it; `check` likewise hands
`f` the attempt built from its arguments and returns the inner kind of
the result verbatim. -/
theorem custom_policy_verbatim (f : Attempt → Action) (a : Attempt) :
    (Policy.custom f).redirect a = f a
    ∧ ∀ (status : StatusCode) (nm : Method) (next : Url) (pm : Method)
        (previous : List Url),
      (Policy.custom f).check status nm next pm previous
        = (f ⟨status, nm, next, pm, previous⟩).inner :=
  ⟨rfl, fun _ _ _ _ _ => rfl⟩

/-- C7: the attempt built by `check` exposes the status, next method,
next URL, previous method, and previous URL list unmodified through its
accessors, and that very attempt is the one handed to the policy. -/
theorem attempt_exposes_inputs (status : StatusCode) (nm : Method)
    (next : Url) (pm : Method) (previous : List Url) :
    (Attempt.mk status nm next pm previous).status = status
    ∧ (Attempt.mk status nm next pm previous).next_method = nm
    ∧ (Attempt.mk status nm next pm previous).url = next
    ∧ (Attempt.mk status nm next pm previous).previous_method = pm
    ∧ (Attempt.mk status nm next pm previous).previous = previous
    ∧ ∀ f : Attempt → Action,
      (Policy.custom f).check status nm next pm previous
        = (f (Attempt.mk status nm next pm previous)).inner :=
  ⟨rfl, rfl, rfl, rfl, rfl, fun _ => rfl⟩

/-- C10: the decision of a `Limit(max)` policy depends only on the
length of the previous-URL list: two attempts with equally long
histories receive the same action — `Follow` on both or the
too-many-redirects `Error` on both — independent of status, methods and
URL contents. -/
theorem limit_depends_only_on_history_length (max : Nat)
    (a1 a2 : Attempt) (h : a1.previous.length = a2.previous.length) :
    (Policy.limited max).redirect a1 = (Policy.limited max).redirect a2
    ∧ (((Policy.limited max).redirect a1).inner = ActionKind.Follow
        ∧ ((Policy.limited max).redirect a2).inner = ActionKind.Follow
      ∨ ((Policy.limited max).redirect a1).inner
          = ActionKind.Error ErrorCause.tooManyRedirects
        ∧ ((Policy.limited max).redirect a2).inner
          = ActionKind.Error ErrorCause.tooManyRedirects) := by
  have e1 : (Policy.limited max).redirect a1
      = if max < a2.previous.length
        then Action.mk (ActionKind.Error ErrorCause.tooManyRedirects)
        else Action.mk ActionKind.Follow := by
    simp only [Policy.redirect, Policy.limited, Attempt.error,
      Attempt.follow, gt_iff_lt, h]
  have e2 : (Policy.limited max).redirect a2
      = if max < a2.previous.length
        then Action.mk (ActionKind.Error ErrorCause.tooManyRedirects)
        else Action.mk ActionKind.Follow := by
    simp only [Policy.redirect, Policy.limited, Attempt.error,
      Attempt.follow, gt_iff_lt]
  rw [e1, e2]
  refine ⟨rfl, ?_⟩
  by_cases hc : max < a2.previous.length
  · exact Or.inr (by simp [hc])
  · exact Or.inl (by simp [hc])

/-- Witness for C10: two attempts differing in status, methods and all
URLs but sharing history length 2 receive the same action. -/
theorem limit_depends_only_on_history_length_witness :
    (Policy.limited 1).redirect
        (Attempt.mk StatusCode.FOUND Method.GET urlXY Method.GET
          [urlAB, urlAB])
      = (Policy.limited 1).redirect
        (Attempt.mk ((301 : Nat) : StatusCode) Method.HEAD urlABZ Method.PUT
          [urlABD, urlXY]) :=
  (limit_depends_only_on_history_length 1
    (Attempt.mk StatusCode.FOUND Method.GET urlXY Method.GET
      [urlAB, urlAB])
    (Attempt.mk ((301 : Nat) : StatusCode) Method.HEAD urlABZ Method.PUT
      [urlABD, urlXY]) rfl).1

end Rquest
